import Mathlib

/-!
Verification development for the retail ETL pipeline
(`include/validations/validate_inputs.py`, `include/validations/validate_outputs.py`,
`include/validations/input_schemas.py`, `include/validations/output_schemas.py`,
`include/etl/transform.py`).

The pandas `DataFrame` is modelled as a `Batch`: an explicit list of column
names together with index-labelled rows of cells (`Value`).  The pandera
schemas are modelled as `Schema`: per-column dtype, nullability and an
optional value check, plus the `strict` flag.  Lazy validation
(`schema.validate(df, lazy=True)`) is modelled by `failureCases`, which
collects every violation in one pass exactly as pandera's
`SchemaErrors.failure_cases` table does:

* a schema column missing from the frame yields a single entry whose row
  index is `none` (pandera reports these with a null index);
* a column whose (non-null) cells do not match the declared dtype yields a
  single column-wide entry with index `none` (pandas dtypes are a property
  of the whole column);
* nullability and value-check violations yield one entry per offending row,
  carrying that row's index.

Python exceptions are modelled by `Except String`: a `.error` value is a
raised exception that propagates to the caller, tagged with the exception
class.  Floating-point numbers are modelled by `ℚ`; the arithmetic performed
by the pipeline on the concrete data in question is exact, so rational
arithmetic is a faithful model of it.
-/

/-- Cell values of a pandas frame: integers, floats (modelled by `ℚ`),
strings, booleans, calendar dates, timestamps (a date code plus an hour),
and the null value (`NaN`/`NaT`/`None`). -/
inductive Value where
  | int (n : Int)
  | rat (q : ℚ)
  | str (s : String)
  | bool (b : Bool)
  | date (d : Int)
  | ts (d : Int) (h : Nat)
  | null
deriving DecidableEq, Repr

/-- Column dtypes as declared by the pandera schemas. -/
inductive Dtype where
  | int | float | str | bool | date | datetime
deriving DecidableEq, Repr

/-- The dtype of a non-null cell; `none` for the null value (nulls do not
determine a dtype on their own). -/
def dtypeOf : Value → Option Dtype
  | Value.int _ => some Dtype.int
  | Value.rat _ => some Dtype.float
  | Value.str _ => some Dtype.str
  | Value.bool _ => some Dtype.bool
  | Value.date _ => some Dtype.date
  | Value.ts _ _ => some Dtype.datetime
  | Value.null => none

/-- Numeric view of a cell, as pandas arithmetic sees it (ints, floats and
booleans are numeric; everything else, including null, is not). -/
def toRat : Value → Option ℚ
  | Value.int n => some (n : ℚ)
  | Value.rat q => some q
  | Value.bool b => some (if b then 1 else 0)
  | _ => none

/-- The comparison `x > 0` as pandas evaluates it elementwise: false on
null/non-numeric cells (`NaN > 0` is `False`). -/
def gtZero (v : Value) : Bool :=
  match toRat v with
  | some q => decide (0 < q)
  | none => false

/-- A batch: the model of a pandas `DataFrame`.  `cols` are the column
labels; each row carries its stable index label (pandas row index) and one
cell per column, positionally aligned with `cols`. -/
structure Batch where
  cols : List String
  rows : List (Nat × List Value)
deriving DecidableEq, Repr

/-- Position of a column label in a column list (leftmost occurrence). -/
def colIdx : List String → String → Option Nat
  | [], _ => none
  | c :: cs, d => if c = d then some 0 else (colIdx cs d).map (· + 1)

/-- Cell of a row at a column position, null-padded (pandas rows always have
one cell per column; missing positions read as null). -/
def cellAt (r : List Value) (i : Nat) : Value :=
  r.getD i Value.null

/-- One entry of pandera's `failure_cases` table: the row index (null for
column-wide failures), the column name, and the failed check. -/
structure FailureCase where
  index : Option Nat
  column : String
  check : String
deriving DecidableEq, Repr

/-- One column of a pandera `DataFrameSchema`: declared dtype, nullability,
and an optional elementwise check. -/
structure ColumnSpec where
  dtype : Dtype
  nullable : Bool
  check : Option (Value → Bool)

/-- A pandera `DataFrameSchema`: named columns plus the `strict` flag. -/
structure Schema where
  columns : List (String × ColumnSpec)
  strict : Bool

/-- Is a cell acceptable for a column spec: nulls are accepted iff the
column is nullable; non-null cells must match the dtype and pass the check.
(Checks run only on non-null cells, as pandera drops nulls before applying
checks.) -/
def cellOK (spec : ColumnSpec) (v : Value) : Bool :=
  if v = Value.null then spec.nullable
  else
    decide (dtypeOf v = some spec.dtype) &&
      (match spec.check with
       | none => true
       | some chk => chk v)

/-- All failure cases of one schema column against a batch, mirroring
pandera's lazy validation: missing column and wrong column dtype are
column-wide entries with a null index; nullability and check violations are
per-row entries carrying the row index. -/
def columnFailures (b : Batch) (c : String) (spec : ColumnSpec) : List FailureCase :=
  match colIdx b.cols c with
  | none => [⟨none, c, "column_in_dataframe"⟩]
  | some i =>
    (if b.rows.any (fun q =>
        decide (∃ d, dtypeOf (cellAt q.2 i) = some d ∧ d ≠ spec.dtype)) then
      [⟨none, c, "dtype"⟩]
    else []) ++
    (if spec.nullable then []
     else b.rows.filterMap (fun q =>
       if cellAt q.2 i = Value.null then some ⟨some q.1, c, "not_nullable"⟩ else none)) ++
    (match spec.check with
     | none => []
     | some chk => b.rows.filterMap (fun q =>
         if cellAt q.2 i ≠ Value.null ∧ chk (cellAt q.2 i) = false then
           some ⟨some q.1, c, "check"⟩
         else none))

/-- The full `failure_cases` table of a lazy validation pass: every
constraint of every schema column evaluated against every row, plus (for a
strict schema) one entry per unexpected extra column. -/
def failureCases (sch : Schema) (b : Batch) : List FailureCase :=
  (sch.columns.flatMap fun p => columnFailures b p.1 p.2) ++
    (if sch.strict then
      (b.cols.filter (fun c => !(sch.columns.any (fun p => p.1 = c)))).map
        (fun c => ⟨none, c, "column_in_schema"⟩)
    else [])

/-- The cleaned frame computed by the validators after a failed lazy pass:
drop the rows whose index appears among the non-null failure indices
(`failed["index"].dropna().unique()` followed by `df.drop(index=...)`); if
every failure has a null index, keep a copy of the whole frame. -/
def cleanedAfterDrop (sch : Schema) (df : Batch) : Batch :=
  let failedIndices := ((failureCases sch df).filterMap (·.index)).dedup
  if failedIndices.isEmpty then df
  else { cols := df.cols
         rows := df.rows.filter (fun q => decide (q.1 ∉ failedIndices)) }

/-- Shared shape of `validate_sales`, `validate_products` and
`validate_sales_clean`: lazy-validate; on success return the frame with
count 0; on `SchemaErrors` drop the failing rows, optionally abort when the
cleaned frame is empty (`validate_sales_clean` only), then re-validate
non-lazily.  The re-validation is wrapped in `except SchemaErrors`, but a
non-lazy `schema.validate` raises `SchemaError` — a sibling class that this
handler does not catch — so a failing second pass propagates as a raised
`SchemaError` (modelled by `.error "SchemaError"`). -/
def runValidator (sch : Schema) (emptyFatal : Bool) (df : Batch) :
    Except String (Batch × Nat) :=
  if (failureCases sch df).isEmpty then Except.ok (df, 0)
  else if emptyFatal && (cleanedAfterDrop sch df).rows.isEmpty then
    Except.error "ValueError: all rows failed output validation"
  else if (failureCases sch (cleanedAfterDrop sch df)).isEmpty then
    Except.ok (cleanedAfterDrop sch df, (failureCases sch df).length)
  else
    Except.error "SchemaError"

/-- Check `x > 0` (pandera `Check.gt(0)`). -/
def checkGtZero : Value → Bool := gtZero

/-- Check `lo <= x <= hi` (pandera `Check.between(lo, hi)`), false on
non-numeric cells. -/
def checkBetween (lo hi : ℚ) (v : Value) : Bool :=
  match toRat v with
  | some q => decide (lo ≤ q ∧ q ≤ hi)
  | none => false

/-- The `sales_schema` of `input_schemas.py`. -/
def sales_schema : Schema :=
  { columns :=
      [("sales_id", ⟨Dtype.int, false, none⟩),
       ("product_id", ⟨Dtype.int, false, none⟩),
       ("order_status", ⟨Dtype.str, false, none⟩),
       ("qty", ⟨Dtype.int, false, some checkGtZero⟩),
       ("price", ⟨Dtype.float, false, none⟩),
       ("discount", ⟨Dtype.float, true, some (checkBetween 0 1)⟩),
       ("region", ⟨Dtype.str, true, none⟩),
       ("time_stamp", ⟨Dtype.str, false, none⟩)]
    strict := false }

/-- The `products_schema` of `input_schemas.py`. -/
def products_schema : Schema :=
  { columns :=
      [("product_id", ⟨Dtype.int, false, none⟩),
       ("category", ⟨Dtype.str, false, none⟩),
       ("brand", ⟨Dtype.str, false, none⟩),
       ("rating", ⟨Dtype.float, true, some (checkBetween 0 5)⟩),
       ("in_stock", ⟨Dtype.bool, true, none⟩)]
    strict := false }

/-- The `sales_clean_schema` of `output_schemas.py` (strict). -/
def sales_clean_schema : Schema :=
  { columns :=
      [("sales_id", ⟨Dtype.int, false, none⟩),
       ("product_id", ⟨Dtype.int, false, none⟩),
       ("category", ⟨Dtype.str, false, none⟩),
       ("brand", ⟨Dtype.str, false, none⟩),
       ("region", ⟨Dtype.str, false, none⟩),
       ("qty", ⟨Dtype.int, false, some checkGtZero⟩),
       ("price", ⟨Dtype.float, false, none⟩),
       ("discount", ⟨Dtype.float, false, some (checkBetween 0 1)⟩),
       ("revenue", ⟨Dtype.float, false, none⟩),
       ("rating", ⟨Dtype.float, true, none⟩),
       ("is_in_stock", ⟨Dtype.bool, false, none⟩),
       ("is_discounted", ⟨Dtype.bool, false, none⟩),
       ("sale_date", ⟨Dtype.date, false, none⟩),
       ("sale_hour", ⟨Dtype.int, false, some (checkBetween 0 23)⟩)]
    strict := true }

/-- `validate_sales` of `validate_inputs.py` (no fatal-empty check). -/
def validate_sales (df : Batch) : Except String (Batch × Nat) :=
  runValidator sales_schema false df

/-- `validate_products` of `validate_inputs.py` (no fatal-empty check). -/
def validate_products (df : Batch) : Except String (Batch × Nat) :=
  runValidator products_schema false df

/-- `validate_sales_clean` of `validate_outputs.py`: same clean/re-validate
cycle but raising `ValueError` when the cleaned frame is empty. -/
def validate_sales_clean (df : Batch) : Except String (Batch × Nat) :=
  runValidator sales_clean_schema true df

/-- A batch conforms to a schema: every schema column is present and every
cell of it is acceptable, and for a strict schema no extra columns exist.
This is the semantic reading of "the batch already satisfies the schema". -/
def batchConforms (sch : Schema) (b : Batch) : Bool :=
  sch.columns.all (fun p =>
    match colIdx b.cols p.1 with
    | none => false
    | some i => b.rows.all (fun q => cellOK p.2 (cellAt q.2 i))) &&
  (!sch.strict || b.cols.all (fun c => sch.columns.any (fun p => p.1 = c)))

/-- A row violates a schema on the columns present in the batch: some
present schema column has an unacceptable cell in this row (a null in a
non-nullable column, a dtype mismatch, or a failed value check). -/
def rowViolates (sch : Schema) (cols : List String) (r : List Value) : Bool :=
  sch.columns.any (fun p =>
    match colIdx cols p.1 with
    | none => false
    | some i => !(cellOK p.2 (cellAt r i)))

/-- The drop step never changes the column set of the frame. -/
theorem cols_cleanedAfterDrop (sch : Schema) (df : Batch) :
    (cleanedAfterDrop sch df).cols = df.cols := by
  unfold cleanedAfterDrop
  by_cases h : (((failureCases sch df).filterMap (·.index)).dedup).isEmpty <;> simp [h]

/-- A cell has no dtype exactly when it is the null value. -/
theorem dtypeOf_eq_none_iff {v : Value} : dtypeOf v = none ↔ v = Value.null := by
  cases v <;> simp [dtypeOf]

/-- A present column with an unacceptable cell in some row always
contributes at least one failure case for that column. -/
theorem columnFailures_ne_nil {b : Batch} {c : String} {spec : ColumnSpec} {i : Nat}
    {q : Nat × List Value} (hci : colIdx b.cols c = some i) (hq : q ∈ b.rows)
    (hbad : cellOK spec (cellAt q.2 i) = false) :
    columnFailures b c spec ≠ [] := by
  unfold columnFailures
  rw [hci]
  by_cases hv : cellAt q.2 i = Value.null
  · -- a null cell in a non-nullable column yields a per-row entry
    rw [cellOK, if_pos hv] at hbad
    apply List.ne_nil_of_mem (a := (⟨some q.1, c, "not_nullable"⟩ : FailureCase))
    refine List.mem_append.mpr (Or.inl (List.mem_append.mpr (Or.inr ?_)))
    rw [hbad]
    exact List.mem_filterMap.mpr ⟨q, hq, by rw [hv]; simp⟩
  · rw [cellOK, if_neg hv, Bool.and_eq_false_iff] at hbad
    rcases hbad with hdt | hchk
    · -- dtype mismatch: column-wide entry
      apply List.ne_nil_of_mem (a := (⟨none, c, "dtype"⟩ : FailureCase))
      refine List.mem_append.mpr (Or.inl (List.mem_append.mpr (Or.inl ?_)))
      have hany : b.rows.any (fun q =>
          decide (∃ d, dtypeOf (cellAt q.2 i) = some d ∧ d ≠ spec.dtype)) = true := by
        refine List.any_eq_true.mpr ⟨q, hq, ?_⟩
        rcases h0 : dtypeOf (cellAt q.2 i) with _ | d0
        · exact absurd ((dtypeOf_eq_none_iff).mp h0) hv
        · simp only [decide_eq_true_eq]
          refine ⟨d0, rfl, ?_⟩
          intro he
          rw [he] at h0
          rw [decide_eq_false_iff_not] at hdt
          exact hdt h0
      rw [if_pos hany]
      exact List.mem_singleton.mpr rfl
    · -- failed value check: per-row entry
      rcases hc : spec.check with _ | chk
      · rw [hc] at hchk; simp at hchk
      · rw [hc] at hchk
        have hchk2 : chk (cellAt q.2 i) = false := hchk
        apply List.ne_nil_of_mem (a := (⟨some q.1, c, "check"⟩ : FailureCase))
        refine List.mem_append.mpr (Or.inr ?_)
        exact List.mem_filterMap.mpr ⟨q, hq, by rw [if_pos ⟨hv, hchk2⟩]⟩

/-- A row that violates some present schema constraint forces the lazy
validation pass to report at least one failure case. -/
theorem failureCases_ne_nil_of_rowViolates {sch : Schema} {b : Batch}
    {q : Nat × List Value} (hq : q ∈ b.rows)
    (hv : rowViolates sch b.cols q.2 = true) :
    failureCases sch b ≠ [] := by
  unfold rowViolates at hv
  obtain ⟨p, hp, hmatch⟩ := List.any_eq_true.mp hv
  rcases hci : colIdx b.cols p.1 with _ | i
  · rw [hci] at hmatch; simp at hmatch
  · rw [hci, Bool.not_eq_true'] at hmatch
    have hne := columnFailures_ne_nil hci hq hmatch
    rcases hex : columnFailures b p.1 p.2 with _ | ⟨fc, rest⟩
    · exact absurd hex hne
    · apply List.ne_nil_of_mem (a := fc)
      unfold failureCases
      refine List.mem_append.mpr (Or.inl (List.mem_flatMap.mpr ⟨p, hp, ?_⟩))
      rw [hex]
      exact List.mem_cons_self fc rest

/-- An acceptable non-null cell matches the declared dtype and passes the
declared check. -/
theorem cellOK_elim_notNull {spec : ColumnSpec} {v : Value}
    (h : cellOK spec v = true) (hnn : v ≠ Value.null) :
    dtypeOf v = some spec.dtype ∧ ∀ chk, spec.check = some chk → chk v = true := by
  rw [cellOK, if_neg hnn, Bool.and_eq_true, decide_eq_true_eq] at h
  refine ⟨h.1, fun chk hc => ?_⟩
  have h2 := h.2
  rw [hc] at h2
  exact h2

/-- An acceptable null cell can only live in a nullable column. -/
theorem cellOK_elim_null {spec : ColumnSpec}
    (h : cellOK spec Value.null = true) : spec.nullable = true := by
  rw [cellOK, if_pos rfl] at h
  exact h

/-- Unfolding lemma for `columnFailures` on a present column. -/
theorem columnFailures_some {b : Batch} {c : String} {spec : ColumnSpec} {i : Nat}
    (hci : colIdx b.cols c = some i) :
    columnFailures b c spec =
      (if b.rows.any (fun q =>
          decide (∃ d, dtypeOf (cellAt q.2 i) = some d ∧ d ≠ spec.dtype)) then
        [⟨none, c, "dtype"⟩]
      else []) ++
      (if spec.nullable then []
       else b.rows.filterMap (fun q =>
         if cellAt q.2 i = Value.null then some ⟨some q.1, c, "not_nullable"⟩ else none)) ++
      (match spec.check with
       | none => []
       | some chk => b.rows.filterMap (fun q =>
           if cellAt q.2 i ≠ Value.null ∧ chk (cellAt q.2 i) = false then
             some ⟨some q.1, c, "check"⟩
           else none)) := by
  unfold columnFailures
  rw [hci]

/-- A present, fully acceptable column contributes no failure cases. -/
theorem columnFailures_eq_nil {b : Batch} {c : String} {spec : ColumnSpec} {i : Nat}
    (hci : colIdx b.cols c = some i)
    (hall : ∀ q ∈ b.rows, cellOK spec (cellAt q.2 i) = true) :
    columnFailures b c spec = [] := by
  rw [columnFailures_some hci]
  have hdt : b.rows.any (fun q =>
      decide (∃ d, dtypeOf (cellAt q.2 i) = some d ∧ d ≠ spec.dtype)) = false := by
    rw [List.any_eq_false]
    intro q hq
    simp only [decide_eq_true_eq, not_exists, not_and]
    intro d hd
    by_cases hnn : cellAt q.2 i = Value.null
    · rw [hnn] at hd; simp [dtypeOf] at hd
    · have := (cellOK_elim_notNull (hall q hq) hnn).1
      rw [this] at hd
      simp only [Option.some.injEq] at hd
      rw [← hd]
      simp
  rw [hdt, if_neg Bool.false_ne_true]
  have hnulls : (if spec.nullable then ([] : List FailureCase)
      else b.rows.filterMap (fun q =>
        if cellAt q.2 i = Value.null then some ⟨some q.1, c, "not_nullable"⟩ else none)) = [] := by
    rcases hn : spec.nullable
    · rw [if_neg Bool.false_ne_true]
      rw [List.filterMap_eq_nil_iff]
      intro q hq
      rw [if_neg]
      intro hnull
      have := cellOK_elim_null (hnull ▸ hall q hq)
      rw [hn] at this
      exact Bool.false_ne_true this
    · rw [if_pos rfl]
  rw [hnulls]
  have hchk : (match spec.check with
      | none => ([] : List FailureCase)
      | some chk => b.rows.filterMap (fun q =>
          if cellAt q.2 i ≠ Value.null ∧ chk (cellAt q.2 i) = false then
            some ⟨some q.1, c, "check"⟩
          else none)) = [] := by
    rcases hc : spec.check with _ | chk
    · rfl
    · rw [List.filterMap_eq_nil_iff]
      intro q hq
      rw [if_neg]
      rintro ⟨hnn, hfalse⟩
      have := (cellOK_elim_notNull (hall q hq) hnn).2 chk hc
      rw [this] at hfalse
      exact absurd hfalse (by simp)
  rw [hchk]
  simp

/-- A batch that conforms to a schema produces an empty failure-case table:
the lazy validation pass reports nothing. -/
theorem failureCases_eq_nil_of_conforms {sch : Schema} {b : Batch}
    (h : batchConforms sch b = true) : failureCases sch b = [] := by
  unfold batchConforms at h
  rw [Bool.and_eq_true] at h
  obtain ⟨h1, h2⟩ := h
  rw [List.all_eq_true] at h1
  unfold failureCases
  rw [List.append_eq_nil]
  constructor
  · rw [List.flatMap_eq_nil_iff]
    intro p hp
    have hcol := h1 p hp
    rcases hci : colIdx b.cols p.1 with _ | i
    · rw [hci] at hcol; simp at hcol
    · rw [hci] at hcol
      rw [List.all_eq_true] at hcol
      exact columnFailures_eq_nil hci hcol
  · rcases hs : sch.strict
    · rw [if_neg Bool.false_ne_true]
    · rw [if_pos rfl, List.map_eq_nil_iff, List.filter_eq_nil_iff]
      intro c hc
      rw [hs] at h2
      simp only [Bool.not_true, Bool.false_or, List.all_eq_true] at h2
      simp [h2 c hc]

/-- CLAIM C7 — For a batch that already satisfies the schema it is
validated against, each validator drops zero rows, returns a count of 0,
and returns the batch unchanged in content. -/
theorem validators_idempotent_on_conformant (df : Batch) :
    (batchConforms sales_schema df = true → validate_sales df = Except.ok (df, 0)) ∧
    (batchConforms products_schema df = true → validate_products df = Except.ok (df, 0)) ∧
    (batchConforms sales_clean_schema df = true →
      validate_sales_clean df = Except.ok (df, 0)) := by
  refine ⟨fun h => ?_, fun h => ?_, fun h => ?_⟩ <;>
  · first
      | (unfold validate_sales runValidator;
         rw [failureCases_eq_nil_of_conforms h]; rfl)
      | (unfold validate_products runValidator;
         rw [failureCases_eq_nil_of_conforms h]; rfl)
      | (unfold validate_sales_clean runValidator;
         rw [failureCases_eq_nil_of_conforms h]; rfl)

/-- CLAIM C2 — Whenever `validate_sales` returns (rather than raising),
every row on which some present schema constraint fails is excluded from
the returned cleaned batch, and the returned count equals the number of
violation entries recorded by the lazy pass (multiple violations on one
row each count separately). -/
theorem validate_sales_quarantine (df clean : Batch) (cnt : Nat)
    (hok : validate_sales df = Except.ok (clean, cnt)) :
    cnt = (failureCases sales_schema df).length ∧
    ∀ q ∈ df.rows, rowViolates sales_schema df.cols q.2 = true → q ∉ clean.rows := by
  unfold validate_sales runValidator at hok
  split_ifs at hok with h1 h2 h3
  · -- clean pass: the batch is returned as-is and nothing can violate
    rw [Except.ok.injEq, Prod.mk.injEq] at hok
    obtain ⟨hdf, hcnt⟩ := hok
    rw [List.isEmpty_iff] at h1
    constructor
    · rw [h1, ← hcnt]
      rfl
    · intro q hq hviol _
      exact failureCases_ne_nil_of_rowViolates hq hviol h1
  · -- re-validation succeeded: the dropped batch is returned
    rw [Except.ok.injEq, Prod.mk.injEq] at hok
    obtain ⟨hdf, hcnt⟩ := hok
    refine ⟨hcnt.symm, fun q hq hviol hmem => ?_⟩
    rw [← hdf] at hmem
    rw [List.isEmpty_iff] at h3
    refine failureCases_ne_nil_of_rowViolates (b := cleanedAfterDrop sales_schema df)
      hmem ?_ h3
    rw [cols_cleanedAfterDrop]
    exact hviol

/-- CLAIM C5 — When the output-gate validation reports failures
(quarantine runs) and the cleaned result after dropping the failing rows
is empty, `validate_sales_clean` raises the fatal empty-result
`ValueError` instead of returning the empty batch. -/
theorem validate_sales_clean_empty_fatal (df : Batch)
    (h1 : failureCases sales_clean_schema df ≠ [])
    (h2 : (cleanedAfterDrop sales_clean_schema df).rows = []) :
    validate_sales_clean df =
      Except.error "ValueError: all rows failed output validation" := by
  unfold validate_sales_clean runValidator
  rw [if_neg (by simp [List.isEmpty_iff, h1]), if_pos (by simp [h2])]

/-- A sales batch whose `qty` column is missing entirely: pandera reports a
single column-level failure with a null row index. -/
def salesMissingQty : Batch :=
  { cols := ["sales_id", "product_id", "order_status", "price",
             "discount", "region", "time_stamp"]
    rows := [(0, [Value.int 1, Value.int 101, Value.str "Completed",
                  Value.rat 10, Value.rat 0, Value.str "US",
                  Value.str "2026-01-01"])] }

/-- CLAIM C3 (code bug) — On a batch whose validation failures survive the
drop step (here: a missing `qty` column, which dropping rows cannot fix),
the post-drop re-validation still fails; the code re-validates without
`lazy=True`, so pandera raises `SchemaError`, which the surrounding
`except SchemaErrors` clause does not catch.  The validator therefore
raises instead of returning the batch best-effort as the spec describes. -/
theorem validate_sales_residual_raises :
    failureCases sales_schema (cleanedAfterDrop sales_schema salesMissingQty) ≠ [] ∧
    validate_sales salesMissingQty = Except.error "SchemaError" :=
  ⟨by decide, by rfl⟩

/-- A products batch with the `category` column missing: every failure case
of the lazy pass is column-level (null row index). -/
def productsMissingCategory : Batch :=
  { cols := ["product_id", "brand", "rating", "in_stock"]
    rows := [(0, [Value.int 101, Value.str "BrandA", Value.rat 4, Value.bool true])] }

/-- CLAIM C10 (code bug) — On a batch whose failures all lack a row index,
the drop step removes nothing, so the cleaned frame is a copy of the
original and still fails; the non-lazy re-validation then raises
`SchemaError` (uncaught by `except SchemaErrors`), so `validate_products`
raises instead of returning the full copy with the nonzero count. -/
theorem validate_products_indexless_raises :
    (failureCases products_schema productsMissingCategory).length = 1 ∧
    (∀ fc ∈ failureCases products_schema productsMissingCategory, fc.index = none) ∧
    validate_products productsMissingCategory = Except.error "SchemaError" :=
  ⟨by decide, by decide, by rfl⟩

/-- A conformant sales batch (used to witness idempotence). -/
def conformantSales : Batch :=
  { cols := ["sales_id", "product_id", "order_status", "qty", "price",
             "discount", "region", "time_stamp"]
    rows := [(0, [Value.int 1, Value.int 101, Value.str "Completed",
                  Value.int 5, Value.rat 10, Value.rat 0, Value.str "US",
                  Value.str "2026-01-01"]),
             (1, [Value.int 2, Value.int 102, Value.str "Completed",
                  Value.int 3, Value.rat 20, Value.null, Value.null,
                  Value.str "2026-01-02"])] }

/-- Witness for C7 at a concrete conformant batch. -/
theorem validators_idempotent_witness :
    validate_sales conformantSales = Except.ok (conformantSales, 0) :=
  (validators_idempotent_on_conformant conformantSales).1 (by decide)

/-- A sales batch whose second row has `qty = -3` (a row-indexed check
violation); the first row is fully valid. -/
def salesWithBadQty : Batch :=
  { cols := ["sales_id", "product_id", "order_status", "qty", "price",
             "discount", "region", "time_stamp"]
    rows := [(0, [Value.int 1, Value.int 101, Value.str "Completed",
                  Value.int 5, Value.rat 10, Value.rat 0, Value.str "US",
                  Value.str "2026-01-01"]),
             (1, [Value.int 2, Value.int 102, Value.str "Completed",
                  Value.int (-3), Value.rat 20, Value.rat 0, Value.str "EU",
                  Value.str "2026-01-02"])] }

/-- The cleaned batch `validate_sales` returns for `salesWithBadQty`. -/
def salesWithBadQtyClean : Batch :=
  { cols := salesWithBadQty.cols
    rows := [(0, [Value.int 1, Value.int 101, Value.str "Completed",
                  Value.int 5, Value.rat 10, Value.rat 0, Value.str "US",
                  Value.str "2026-01-01"])] }

/-- Witness for C2 at a concrete batch: the count returned equals the
number of violation entries, and the violating row is excluded. -/
theorem validate_sales_quarantine_witness :
    (1 : Nat) = (failureCases sales_schema salesWithBadQty).length ∧
    (1, [Value.int 2, Value.int 102, Value.str "Completed",
         Value.int (-3), Value.rat 20, Value.rat 0, Value.str "EU",
         Value.str "2026-01-02"]) ∉ salesWithBadQtyClean.rows :=
  ⟨(validate_sales_quarantine salesWithBadQty salesWithBadQtyClean 1 (by rfl)).1,
   (validate_sales_quarantine salesWithBadQty salesWithBadQtyClean 1 (by rfl)).2
     _ (by decide) (by decide)⟩

/-- An output batch whose single row fails the `qty > 0` check, so the
quarantine empties the batch. -/
def outputAllBad : Batch :=
  { cols := ["sales_id", "product_id", "category", "brand", "region",
             "qty", "price", "discount", "revenue", "rating",
             "is_in_stock", "is_discounted", "sale_date", "sale_hour"]
    rows := [(0, [Value.int 1, Value.int 101, Value.str "A", Value.str "B",
                  Value.str "US", Value.int 0, Value.rat 10, Value.rat 0,
                  Value.rat 10, Value.null, Value.bool true, Value.bool false,
                  Value.date 20260101, Value.int 10])] }

/-- Witness for C5 at a concrete batch where quarantine removes every row. -/
theorem validate_sales_clean_empty_fatal_witness :
    validate_sales_clean outputAllBad =
      Except.error "ValueError: all rows failed output validation" :=
  validate_sales_clean_empty_fatal outputAllBad (by decide) (by decide)

/-- Whitespace characters stripped by `str.strip()` (ASCII model: space,
tab, newline, carriage return). -/
def wsChar (c : Char) : Bool :=
  c.toNat = 32 || c.toNat = 9 || c.toNat = 10 || c.toNat = 13

/-- Lowercase one character (`str.lower()`, ASCII model): map A–Z to a–z,
leave everything else unchanged. -/
def lowChar (c : Char) : Char :=
  if 65 ≤ c.toNat ∧ c.toNat ≤ 90 then Char.ofNat (c.toNat + 32) else c

/-- Replace one space by an underscore (`str.replace(" ", "_")` acting
characterwise, since the pattern is a single character). -/
def repChar (c : Char) : Char :=
  if c.toNat = 32 then Char.ofNat 95 else c

/-- Strip leading and trailing whitespace from a character list
(`str.strip()`). -/
def stripChars (l : List Char) : List Char :=
  ((l.dropWhile wsChar).reverse.dropWhile wsChar).reverse

/-- Header normalization of `transform.py` line 17:
`.str.strip().str.lower().str.replace(" ", "_")`. -/
def normalizeHeader (s : String) : String :=
  String.mk (((stripChars s.data).map lowChar).map repChar)

/-- The in-place column rename `sales_df.columns = ...`: labels are
normalized, the data is untouched. -/
def renameHeaders (b : Batch) : Batch :=
  { cols := b.cols.map normalizeHeader, rows := b.rows }

/-- Evaluation of `Char.ofNat` at a valid code point. -/
theorem toNat_ofNat_valid (n : Nat) (h : n.isValidChar) : (Char.ofNat n).toNat = n := by
  simp [Char.ofNat, h, Char.ofNatAux, Char.toNat, UInt32.toNat, BitVec.toNat_ofNatLt]

/-- Lowercasing an uppercase letter adds 32 to its code point. -/
theorem lowChar_toNat_of_upper {c : Char} (h : 65 ≤ c.toNat ∧ c.toNat ≤ 90) :
    (lowChar c).toNat = c.toNat + 32 := by
  unfold lowChar
  rw [if_pos h]
  exact toNat_ofNat_valid _ (Or.inl (by omega))

/-- Lowercasing fixes non-uppercase characters. -/
theorem lowChar_eq_self {c : Char} (h : ¬(65 ≤ c.toNat ∧ c.toNat ≤ 90)) :
    lowChar c = c := by
  unfold lowChar
  rw [if_neg h]

/-- Lowercasing is idempotent. -/
theorem lowChar_idem (c : Char) : lowChar (lowChar c) = lowChar c := by
  by_cases h : 65 ≤ c.toNat ∧ c.toNat ≤ 90
  · have ht := lowChar_toNat_of_upper h
    exact lowChar_eq_self (by omega)
  · rw [lowChar_eq_self h, lowChar_eq_self h]

/-- The underscore has code point 95. -/
theorem toNat_underscore : (Char.ofNat 95).toNat = 95 :=
  toNat_ofNat_valid 95 (by norm_num [Nat.isValidChar])

/-- Space replacement fixes non-space characters. -/
theorem repChar_eq_self {c : Char} (h : ¬ c.toNat = 32) : repChar c = c := by
  unfold repChar
  rw [if_neg h]

/-- Space replacement is idempotent. -/
theorem repChar_idem (c : Char) : repChar (repChar c) = repChar c := by
  by_cases h : c.toNat = 32
  · unfold repChar
    rw [if_pos h, if_neg (by rw [toNat_underscore]; omega)]
  · rw [repChar_eq_self h, repChar_eq_self h]

/-- Lowercasing preserves non-whitespace characters. -/
theorem wsChar_lowChar {c : Char} (h : wsChar c = false) : wsChar (lowChar c) = false := by
  by_cases hu : 65 ≤ c.toNat ∧ c.toNat ≤ 90
  · have ht := lowChar_toNat_of_upper hu
    unfold wsChar
    simp only [Bool.or_eq_false_iff, decide_eq_false_iff_not]
    omega
  · rw [lowChar_eq_self hu]
    exact h

/-- Space replacement turns whitespace status into non-whitespace or keeps
non-whitespace: the result of replacing a non-whitespace character is
non-whitespace. -/
theorem wsChar_repChar {c : Char} (h : wsChar c = false) : wsChar (repChar c) = false := by
  by_cases hs : c.toNat = 32
  · unfold wsChar at h
    simp only [Bool.or_eq_false_iff, decide_eq_false_iff_not] at h
    omega
  · rw [repChar_eq_self hs]
    exact h

/-- The combined per-character normalization: lowercase then replace. -/
theorem repLow_idem (c : Char) : repChar (lowChar (repChar (lowChar c))) = repChar (lowChar c) := by
  by_cases hs : (lowChar c).toNat = 32
  · unfold repChar
    rw [if_pos hs]
    rw [lowChar_eq_self (by rw [toNat_underscore]; omega)]
    simp
  · rw [repChar_eq_self hs, lowChar_idem, repChar_eq_self hs]

/-- The head of a `dropWhile` result never satisfies the predicate. -/
theorem head_dropWhile_not (p : Char → Bool) (l : List Char) :
    ∀ a ∈ (l.dropWhile p).head?, p a = false := by
  induction l with
  | nil => intro a ha; simp at ha
  | cons c t ih =>
    intro a ha
    rw [List.dropWhile_cons] at ha
    by_cases hc : p c = true
    · rw [if_pos hc] at ha
      exact ih a ha
    · rw [if_neg hc] at ha
      simp only [List.head?_cons, Option.mem_def, Option.some.injEq] at ha
      rw [← ha]
      exact Bool.not_eq_true _ |>.mp hc

/-- `dropWhile` is the identity when the head does not satisfy the
predicate. -/
theorem dropWhile_eq_self_of_head (p : Char → Bool) (l : List Char)
    (h : ∀ a ∈ l.head?, p a = false) : l.dropWhile p = l := by
  cases l with
  | nil => rfl
  | cons c t =>
    rw [List.dropWhile_cons, if_neg]
    have := h c (by simp)
    simp [this]

/-- `dropWhile` yields a suffix of its input. -/
theorem dropWhile_isSuffix (p : Char → Bool) (l : List Char) :
    (l.dropWhile p) <:+ l := by
  induction l with
  | nil => exact List.suffix_rfl
  | cons c t ih =>
    rw [List.dropWhile_cons]
    by_cases hc : p c = true
    · rw [if_pos hc]
      exact ih.trans (List.suffix_cons c t)
    · rw [if_neg hc]

/-- A nonempty suffix has the same last element as the whole list. -/
theorem getLast_eq_of_isSuffix {l m : List Char} (h : l <:+ m) (hne : l ≠ []) :
    l.getLast? = m.getLast? := by
  obtain ⟨z, hz⟩ := h
  rw [← hz]
  exact (List.getLast?_append_of_ne_nil z hne).symm

/-- The head of a stripped list is not whitespace. -/
theorem stripChars_head (l : List Char) :
    ∀ a ∈ (stripChars l).head?, wsChar a = false := by
  intro a ha
  unfold stripChars at ha
  rw [List.head?_reverse] at ha
  rcases hd : (l.dropWhile wsChar).reverse.dropWhile wsChar with _ | ⟨c, t⟩
  · rw [hd] at ha; simp at ha
  · rw [hd] at ha
    have hsuf : (c :: t) <:+ (l.dropWhile wsChar).reverse := by
      rw [← hd]; exact dropWhile_isSuffix _ _
    have hlast : (c :: t).getLast? = ((l.dropWhile wsChar).reverse).getLast? :=
      getLast_eq_of_isSuffix hsuf (by simp)
    rw [hlast, List.getLast?_reverse] at ha
    exact head_dropWhile_not wsChar l a ha

/-- The last element of a stripped list is not whitespace. -/
theorem stripChars_getLast (l : List Char) :
    ∀ a ∈ (stripChars l).getLast?, wsChar a = false := by
  intro a ha
  unfold stripChars at ha
  rw [List.getLast?_reverse] at ha
  exact head_dropWhile_not wsChar _ a ha

/-- Stripping is the identity on lists whose two ends are not whitespace. -/
theorem stripChars_eq_self {l : List Char}
    (h1 : ∀ a ∈ l.head?, wsChar a = false)
    (h2 : ∀ a ∈ l.getLast?, wsChar a = false) : stripChars l = l := by
  unfold stripChars
  rw [dropWhile_eq_self_of_head wsChar l h1]
  rw [dropWhile_eq_self_of_head wsChar l.reverse (by rw [List.head?_reverse]; exact h2)]
  exact List.reverse_reverse l

/-- Header normalization is idempotent. -/
theorem normalizeHeader_idem (s : String) :
    normalizeHeader (normalizeHeader s) = normalizeHeader s := by
  unfold normalizeHeader
  have hdata : (String.mk (((stripChars s.data).map lowChar).map repChar)).data =
      ((stripChars s.data).map lowChar).map repChar := rfl
  rw [hdata]
  have hstrip : stripChars (((stripChars s.data).map lowChar).map repChar) =
      ((stripChars s.data).map lowChar).map repChar := by
    refine stripChars_eq_self ?_ ?_
    · intro a ha
      rw [List.head?_map, List.head?_map] at ha
      rcases hh : (stripChars s.data).head? with _ | c
      · rw [hh] at ha; simp at ha
      · rw [hh] at ha
        have ha2 : a = repChar (lowChar c) := by
          simpa using ha.symm
        rw [ha2]
        exact wsChar_repChar (wsChar_lowChar (stripChars_head s.data c (by rw [hh]; rfl)))
    · intro a ha
      rw [List.getLast?_map, List.getLast?_map] at ha
      rcases hh : (stripChars s.data).getLast? with _ | c
      · rw [hh] at ha; simp at ha
      · rw [hh] at ha
        have ha2 : a = repChar (lowChar c) := by
          simpa using ha.symm
        rw [ha2]
        exact wsChar_repChar (wsChar_lowChar (stripChars_getLast s.data c (by rw [hh]; rfl)))
  rw [hstrip]
  have hmaps : (((((stripChars s.data).map lowChar).map repChar).map lowChar).map repChar) =
      ((stripChars s.data).map lowChar).map repChar := by
    simp only [List.map_map]
    exact List.map_congr_left (fun a _ => repLow_idem a)
  rw [hmaps]

/-- Uppercase one character (`str.upper()`, ASCII model). -/
def upChar (c : Char) : Char :=
  if 97 ≤ c.toNat ∧ c.toNat ≤ 122 then Char.ofNat (c.toNat - 32) else c

/-- Uppercase a string (`.str.upper()`). -/
def upperStr (s : String) : String :=
  String.mk (s.data.map upChar)

/-- Column access `df["c"]`: the position of the column, or a raised
`KeyError` when the label is absent. -/
def keyIdx (cols : List String) (c : String) : Except String Nat :=
  match colIdx cols c with
  | some i => Except.ok i
  | none => Except.error ("KeyError: " ++ c)

/-- Pad or truncate a row to the width of the frame (pandas rows always
have exactly one cell per column). -/
def fit (r : List Value) (n : Nat) : List Value :=
  (List.range n).map (fun i => cellAt r i)

/-- Column assignment `df["c"] = f(row)`: overwrite the column in place if
the label exists, otherwise append it on the right (pandas semantics).  The
new cell is computed from the current row. -/
def setColumn (b : Batch) (c : String) (f : List Value → Value) : Batch :=
  match colIdx b.cols c with
  | some j =>
    { cols := b.cols
      rows := b.rows.map (fun q => (q.1, (fit q.2 b.cols.length).set j (f q.2))) }
  | none =>
    { cols := b.cols ++ [c]
      rows := b.rows.map (fun q => (q.1, fit q.2 b.cols.length ++ [f q.2])) }

/-- Stage 1 of `transform_sales_and_products` (line 22): keep only rows
whose `order_status` equals the literal string `"Completed"`. -/
def stageCompleted (b : Batch) : Except String Batch := do
  let i ← keyIdx b.cols "order_status"
  Except.ok { cols := b.cols
              rows := b.rows.filter (fun q =>
                decide (cellAt q.2 i = Value.str "Completed")) }

/-- Region normalization applied to one cell (lines 28–32): null becomes
`"UNKNOWN"`, strings are uppercased, and `.str.upper()` turns non-string
cells into null (pandas `.str` accessor semantics). -/
def regionFix (v : Value) : Value :=
  match v with
  | Value.null => Value.str "UNKNOWN"
  | Value.str s => Value.str (upperStr s)
  | _ => Value.null

/-- Stage 2 (lines 28–32): fill null regions with `"UNKNOWN"` and
uppercase. -/
def stageRegion (b : Batch) : Except String Batch := do
  let i ← keyIdx b.cols "region"
  Except.ok (setColumn b "region" (fun r => regionFix (cellAt r i)))

/-- Stage 3 (lines 45–52): parse `time_stamp` with
`pd.to_datetime(..., errors="coerce", format="mixed")` — the mixed-format
parser itself is a pandas collaborator, taken as the parameter `parse`
(returning a date code and an hour, or `none` for unparseable input) —
then derive `sale_date` and `sale_hour`.  Unparseable or non-string cells
become null (`NaT`), and null propagates into both derived columns. -/
def stageTimestamps (parse : String → Option (Int × Nat)) (b : Batch) :
    Except String Batch := do
  let it ← keyIdx b.cols "time_stamp"
  let b1 := setColumn b "timestamp" (fun r =>
    match cellAt r it with
    | Value.str s =>
      match parse s with
      | some dh => Value.ts dh.1 dh.2
      | none => Value.null
    | _ => Value.null)
  let its ← keyIdx b1.cols "timestamp"
  let b2 := setColumn b1 "sale_date" (fun r =>
    match cellAt r its with
    | Value.ts d _ => Value.date d
    | _ => Value.null)
  let b3 := setColumn b2 "sale_hour" (fun r =>
    match cellAt r its with
    | Value.ts _ h => Value.int (Int.ofNat h)
    | _ => Value.null)
  Except.ok b3

/-- Stage 4 (lines 61–67): fill null discounts with 0, then compute
`revenue = qty * price * (1 - discount)` per row; a non-numeric operand
yields a null revenue. -/
def stageRevenue (b : Batch) : Except String Batch := do
  let idis ← keyIdx b.cols "discount"
  let b1 := setColumn b "discount" (fun r =>
    match cellAt r idis with
    | Value.null => Value.rat 0
    | v => v)
  let iq ← keyIdx b1.cols "qty"
  let ip ← keyIdx b1.cols "price"
  let id2 ← keyIdx b1.cols "discount"
  Except.ok (setColumn b1 "revenue" (fun r =>
    match toRat (cellAt r iq), toRat (cellAt r ip), toRat (cellAt r id2) with
    | some a, some p, some d => Value.rat (a * p * (1 - d))
    | _, _, _ => Value.null))

/-- Stage 4.5 (line 80): keep only rows with `price > 0` and
`revenue > 0`. -/
def stageFinancialFilter (b : Batch) : Except String Batch := do
  let ip ← keyIdx b.cols "price"
  let ir ← keyIdx b.cols "revenue"
  Except.ok { cols := b.cols
              rows := b.rows.filter (fun q =>
                gtZero (cellAt q.2 ip) && gtZero (cellAt q.2 ir)) }

/-- Stage 5 (lines 95–99): `sales_df.merge(products_df, on="product_id",
how="left")`.  Every left row is kept; a row with no match gets nulls for
the product columns; each match produces one output row; overlapping
non-key column labels receive pandas' `_x`/`_y` suffixes; the output gets
a fresh zero-based index. -/
def stageMerge (b products : Batch) : Except String Batch := do
  let ks ← keyIdx b.cols "product_id"
  let kp ← keyIdx products.cols "product_id"
  let leftCols := b.cols.map (fun c =>
    if c ≠ "product_id" ∧ c ∈ products.cols then c ++ "_x" else c)
  let rightCols := (products.cols.eraseIdx kp).map (fun c =>
    if c ∈ b.cols then c ++ "_y" else c)
  let mrows := b.rows.flatMap (fun q =>
    let key := cellAt q.2 ks
    let ms := products.rows.filter (fun pq =>
      decide (key ≠ Value.null ∧ cellAt pq.2 kp = key))
    if ms.isEmpty then
      [fit q.2 b.cols.length ++ List.replicate (products.cols.length - 1) Value.null]
    else
      ms.map (fun pq => fit q.2 b.cols.length ++ (fit pq.2 products.cols.length).eraseIdx kp))
  Except.ok { cols := leftCols ++ rightCols, rows := mrows.enum }

/-- Stage 6 (lines 110–111): business flags.  `is_discounted` is
`discount > 0`; `is_in_stock` is `in_stock` with nulls filled by `False`
(non-null cells are kept as they are by `fillna`). -/
def stageFlags (b : Batch) : Except String Batch := do
  let idis ← keyIdx b.cols "discount"
  let b1 := setColumn b "is_discounted" (fun r => Value.bool (gtZero (cellAt r idis)))
  let ist ← keyIdx b1.cols "in_stock"
  Except.ok (setColumn b1 "is_in_stock" (fun r =>
    match cellAt r ist with
    | Value.null => Value.bool false
    | v => v))

/-- The `astype("int64")` cast of one cell (truncating conversion). -/
def castInt64 : Value → Value
  | Value.int n => Value.int n
  | Value.rat q => Value.int (q.num / (q.den : Int))
  | Value.bool b => Value.int (if b then 1 else 0)
  | v => v

/-- Stage 7 (line 119): `enriched_df["sale_hour"].astype("int64")`.
A null (`NaN`) anywhere in the column makes pandas raise
`ValueError: cannot convert non-finite values` — the cast does not skip
null cells. -/
def stageAstypeHour (b : Batch) : Except String Batch := do
  let ih ← keyIdx b.cols "sale_hour"
  if b.rows.any (fun q => decide (cellAt q.2 ih = Value.null)) then
    Except.error "ValueError: cannot convert non-finite values to int64"
  else
    Except.ok { cols := b.cols
                rows := b.rows.map (fun q =>
                  (q.1, (fit q.2 b.cols.length).set ih (castInt64 (cellAt q.2 ih)))) }

/-- The fixed output column list of stage 8 (lines 130–156). -/
def final_columns : List String :=
  ["sales_id", "product_id", "category", "brand", "region",
   "qty", "price", "discount", "revenue", "rating",
   "is_in_stock", "is_discounted", "sale_date", "sale_hour"]

/-- Stage 8 (line 158): `enriched_df[final_columns]` — project and reorder
to the fixed column list, raising `KeyError` on a missing label. -/
def stageSelect (b : Batch) : Except String Batch := do
  let idxs ← final_columns.mapM (keyIdx b.cols)
  Except.ok { cols := final_columns
              rows := b.rows.map (fun q => (q.1, idxs.map (fun i => cellAt q.2 i))) }

/-- The body of `transform_sales_and_products` after the header rename:
stages 1–8 in the order of the source. -/
def transformRest (parse : String → Option (Int × Nat)) (salesN products : Batch) :
    Except String Batch := do
  let b1 ← stageCompleted salesN
  let b2 ← stageRegion b1
  let b3 ← stageTimestamps parse b2
  let b4 ← stageRevenue b3
  let b5 ← stageFinancialFilter b4
  let b6 ← stageMerge b5 products
  let b7 ← stageFlags b6
  let b8 ← stageAstypeHour b7
  stageSelect b8

/-- Decidable equality of modelled call results. -/
instance exceptDecEq {ε α : Type} [DecidableEq ε] [DecidableEq α] :
    DecidableEq (Except ε α)
  | Except.ok x, Except.ok y =>
    if h : x = y then Decidable.isTrue (h ▸ rfl)
    else Decidable.isFalse (fun he => h (Except.ok.inj he))
  | Except.error e, Except.error f =>
    if h : e = f then Decidable.isTrue (h ▸ rfl)
    else Decidable.isFalse (fun he => h (Except.error.inj he))
  | Except.ok _, Except.error _ => Decidable.isFalse (fun he => Except.noConfusion he)
  | Except.error _, Except.ok _ => Decidable.isFalse (fun he => Except.noConfusion he)

/-- Outcome of one call to `transform_sales_and_products`: the returned
value (or raised exception), together with the state of the two
caller-owned input frames after the call.  Line 17 assigns
`sales_df.columns` on the caller's frame — an in-place mutation that the
caller observes — before line 22 rebinds the local name to a filtered
copy; the products frame is only ever read. -/
structure TransformOutcome where
  result : Except String Batch
  salesAfter : Batch
  productsAfter : Batch
deriving DecidableEq

/-- `transform_sales_and_products` of `transform.py`, parametrized by the
pandas mixed-format timestamp parser. -/
def transform_sales_and_products (parse : String → Option (Int × Nat))
    (sales products : Batch) : TransformOutcome :=
  { result := transformRest parse (renameHeaders sales) products
    salesAfter := renameHeaders sales
    productsAfter := products }

/-- The padded row has exactly the frame width. -/
theorem fit_length (r : List Value) (n : Nat) : (fit r n).length = n := by
  simp [fit]

/-- Padding does not change cells inside the width. -/
theorem cellAt_fit_lt {r : List Value} {n i : Nat} (h : i < n) :
    cellAt (fit r n) i = cellAt r i := by
  unfold cellAt fit List.getD
  rw [List.get?_eq_getElem?, List.get?_eq_getElem?, List.getElem?_map,
    List.getElem?_range h]
  simp [cellAt, List.getD, List.get?_eq_getElem?]

/-- Cells left of an appended tail read from the padded row. -/
theorem cellAt_fitAppend_lt {r : List Value} {n i : Nat} (t : List Value) (h : i < n) :
    cellAt (fit r n ++ t) i = cellAt r i := by
  unfold cellAt
  rw [List.getD_append _ _ _ _ (by rw [fit_length]; exact h)]
  exact cellAt_fit_lt h

/-- The single appended cell sits exactly at the old width. -/
theorem cellAt_fitAppend_eq (r : List Value) (n : Nat) (v : Value) :
    cellAt (fit r n ++ [v]) n = v := by
  unfold cellAt List.getD
  rw [List.get?_eq_getElem?, List.getElem?_append_right (by rw [fit_length])]
  rw [fit_length]
  simp

/-- Setting one position does not change the others. -/
theorem cellAt_set_ne {l : List Value} {i j : Nat} (v : Value) (h : j ≠ i) :
    cellAt (l.set j v) i = cellAt l i := by
  unfold cellAt List.getD
  rw [List.get?_eq_getElem?, List.get?_eq_getElem?, List.getElem?_set_ne h]

/-- Setting one position stores the new value there. -/
theorem cellAt_set_eq {l : List Value} {j : Nat} (v : Value) (h : j < l.length) :
    cellAt (l.set j v) j = v := by
  unfold cellAt List.getD
  rw [List.get?_eq_getElem?, List.getElem?_set_self h]
  rfl

/-- Cells of the null padding appended by an unmatched left join. -/
theorem cellAt_fitAppend_replicate {r : List Value} {n m i : Nat}
    (hge : n ≤ i) (hlt : i - n < m) :
    cellAt (fit r n ++ List.replicate m Value.null) i = Value.null := by
  unfold cellAt List.getD
  rw [List.get?_eq_getElem?, List.getElem?_append_right (by rw [fit_length]; exact hge)]
  rw [fit_length, List.getElem?_replicate, if_pos hlt]
  rfl

/-- The payload of an enumerated entry is a member of the list. -/
theorem snd_mem_of_mem_enum {α : Type} {p : Nat × α} {l : List α}
    (h : p ∈ l.enum) : p.2 ∈ l := by
  obtain ⟨i, x⟩ := p
  obtain ⟨h1, h2⟩ := List.mem_enum h
  rw [h2]
  exact List.getElem_mem (by omega)

/-- Every member occurs in the enumeration at some position. -/
theorem exists_mem_enum_of_mem {α : Type} {a : α} {l : List α}
    (h : a ∈ l) : ∃ i, (i, a) ∈ l.enum := by
  obtain ⟨n, hn, he⟩ := List.getElem_of_mem h
  refine ⟨n, ?_⟩
  have hlen : n < l.enum.length := by rw [List.enum_length]; exact hn
  have := List.getElem_enum l n hlen
  rw [he] at this
  rw [← this]
  exact List.getElem_mem hlen

/-- The post-normalization sales input layout (the eight columns declared
by `sales_schema`, already in normalized form). -/
def salesInputCols : List String :=
  ["sales_id", "product_id", "order_status", "qty", "price",
   "discount", "region", "time_stamp"]

/-- The product input layout (the five columns declared by
`products_schema`). -/
def productInputCols : List String :=
  ["product_id", "category", "brand", "rating", "in_stock"]

/-- Parsed timestamp cell of stage 3 on the standard layout. -/
def tsParse (parse : String → Option (Int × Nat)) (v : Value) : Value :=
  match v with
  | Value.str s =>
    match parse s with
    | some dh => Value.ts dh.1 dh.2
    | none => Value.null
  | _ => Value.null

/-- Stage-1 filter on the standard layout (`order_status` at position 2). -/
def completedFilter (q : Nat × List Value) : Bool :=
  decide (cellAt q.2 2 = Value.str "Completed")

/-- Stage-2 row update on the standard layout (`region` at position 6). -/
def regionStep (q : Nat × List Value) : Nat × List Value :=
  (q.1, (fit q.2 8).set 6 (regionFix (cellAt q.2 6)))

/-- Stage-3 row updates on the standard layout: append `timestamp` (from
`time_stamp` at 7), then `sale_date` and `sale_hour` (from `timestamp`
at 8). -/
def tsStep (parse : String → Option (Int × Nat)) (q : Nat × List Value) :
    Nat × List Value :=
  (q.1, fit q.2 8 ++ [tsParse parse (cellAt q.2 7)])

/-- Derivation of `sale_date` from the parsed timestamp. -/
def dateStep (q : Nat × List Value) : Nat × List Value :=
  (q.1, fit q.2 9 ++ [match cellAt q.2 8 with
                      | Value.ts d _ => Value.date d
                      | _ => Value.null])

/-- Derivation of `sale_hour` from the parsed timestamp. -/
def hourStep (q : Nat × List Value) : Nat × List Value :=
  (q.1, fit q.2 10 ++ [match cellAt q.2 8 with
                       | Value.ts _ h => Value.int (Int.ofNat h)
                       | _ => Value.null])

/-- Stage-4 discount defaulting on the standard layout (`discount` at 5). -/
def fillDiscountStep (q : Nat × List Value) : Nat × List Value :=
  (q.1, (fit q.2 11).set 5 (match cellAt q.2 5 with
                            | Value.null => Value.rat 0
                            | v => v))

/-- The revenue cell of stage 4 on the standard layout (`qty` at 3,
`price` at 4, `discount` at 5). -/
def revenueCell (r : List Value) : Value :=
  match toRat (cellAt r 3), toRat (cellAt r 4), toRat (cellAt r 5) with
  | some a, some p, some d => Value.rat (a * p * (1 - d))
  | _, _, _ => Value.null

/-- Stage-4 revenue append on the standard layout. -/
def revenueStep (q : Nat × List Value) : Nat × List Value :=
  (q.1, fit q.2 11 ++ [revenueCell q.2])

/-- Stage-4.5 filter on the standard layout (`price` at 4, `revenue`
at 11). -/
def financialFilter (q : Nat × List Value) : Bool :=
  gtZero (cellAt q.2 4) && gtZero (cellAt q.2 11)

/-- The sales rows that survive stages 1–4.5 of the pipeline on the
standard input layout (the working frame entering the dimension join). -/
def survivingSalesRows (parse : String → Option (Int × Nat))
    (srows : List (Nat × List Value)) : List (Nat × List Value) :=
  ((((((srows.filter completedFilter).map regionStep).map (tsStep parse)).map
    dateStep).map hourStep).map fillDiscountStep).map revenueStep
    |>.filter financialFilter

/-- Stage-5 left join of one surviving sales row against the product rows
on the standard layouts (sales key at 1, product key at 0, 12 sales-side
columns, 5 product columns). -/
def mergeStep (prows : List (Nat × List Value)) (q : Nat × List Value) :
    List (List Value) :=
  let key := cellAt q.2 1
  let ms := prows.filter (fun pq => decide (key ≠ Value.null ∧ cellAt pq.2 0 = key))
  if ms.isEmpty then [fit q.2 12 ++ List.replicate 4 Value.null]
  else ms.map (fun pq => fit q.2 12 ++ (fit pq.2 5).eraseIdx 0)

/-- All merged rows of stage 5 on the standard layouts. -/
def mergedRowsStd (parse : String → Option (Int × Nat))
    (srows prows : List (Nat × List Value)) : List (List Value) :=
  (survivingSalesRows parse srows).flatMap (mergeStep prows)

/-- Stage-6 `is_discounted` append on the merged layout (`discount`
at 5). -/
def discFlagStep (q : Nat × List Value) : Nat × List Value :=
  (q.1, fit q.2 16 ++ [Value.bool (gtZero (cellAt q.2 5))])

/-- Stage-6 `is_in_stock` append on the merged layout (`in_stock`
at 15). -/
def stockFlagStep (q : Nat × List Value) : Nat × List Value :=
  (q.1, fit q.2 17 ++ [match cellAt q.2 15 with
                       | Value.null => Value.bool false
                       | v => v])

/-- The 18-column layout entering the `astype`/projection stages on the
standard inputs. -/
def enrichedCols : List String :=
  ["sales_id", "product_id", "order_status", "qty", "price", "discount",
   "region", "time_stamp", "timestamp", "sale_date", "sale_hour", "revenue",
   "category", "brand", "rating", "in_stock", "is_discounted", "is_in_stock"]

/-- The enriched frame entering stage 7 on the standard input layouts. -/
def enrichedBatchStd (parse : String → Option (Int × Nat))
    (srows prows : List (Nat × List Value)) : Batch :=
  { cols := enrichedCols
    rows := (((mergedRowsStd parse srows prows).enum.map discFlagStep).map
      stockFlagStep) }

/-- The working layout after stage 3 (three derived columns appended). -/
def transformCols11 : List String :=
  ["sales_id", "product_id", "order_status", "qty", "price",
   "discount", "region", "time_stamp", "timestamp", "sale_date", "sale_hour"]

/-- The working layout after stage 4 (`revenue` appended). -/
def transformCols12 : List String :=
  ["sales_id", "product_id", "order_status", "qty", "price",
   "discount", "region", "time_stamp", "timestamp", "sale_date", "sale_hour",
   "revenue"]

/-- The merged layout after stage 5 (four product columns appended). -/
def mergedCols16 : List String :=
  ["sales_id", "product_id", "order_status", "qty", "price",
   "discount", "region", "time_stamp", "timestamp", "sale_date", "sale_hour",
   "revenue", "category", "brand", "rating", "in_stock"]

/-- Binding a returned value just applies the continuation. -/
theorem exBindOk {α β : Type} (a : α) (f : α → Except String β) :
    (Except.ok a >>= f) = f a := rfl

/-- Stage 1 evaluated on the standard layout. -/
theorem stageCompleted_std (rs : List (Nat × List Value)) :
    stageCompleted ⟨salesInputCols, rs⟩ =
      Except.ok ⟨salesInputCols, rs.filter completedFilter⟩ := rfl

/-- Stage 2 evaluated on the standard layout. -/
theorem stageRegion_std (rs : List (Nat × List Value)) :
    stageRegion ⟨salesInputCols, rs⟩ =
      Except.ok ⟨salesInputCols, rs.map regionStep⟩ := rfl

/-- Stage 3 evaluated on the standard layout. -/
theorem stageTimestamps_std (parse : String → Option (Int × Nat))
    (rs : List (Nat × List Value)) :
    stageTimestamps parse ⟨salesInputCols, rs⟩ =
      Except.ok ⟨transformCols11, ((rs.map (tsStep parse)).map dateStep).map hourStep⟩ := rfl

/-- Stage 4 evaluated on the post-stage-3 layout. -/
theorem stageRevenue_std (rs : List (Nat × List Value)) :
    stageRevenue ⟨transformCols11, rs⟩ =
      Except.ok ⟨transformCols12, (rs.map fillDiscountStep).map revenueStep⟩ := rfl

/-- Stage 4.5 evaluated on the post-stage-4 layout. -/
theorem stageFinancialFilter_std (rs : List (Nat × List Value)) :
    stageFinancialFilter ⟨transformCols12, rs⟩ =
      Except.ok ⟨transformCols12, rs.filter financialFilter⟩ := rfl

/-- Stage 5 evaluated on the standard layouts. -/
theorem stageMerge_std (rs ps : List (Nat × List Value)) :
    stageMerge ⟨transformCols12, rs⟩ ⟨productInputCols, ps⟩ =
      Except.ok ⟨mergedCols16, (rs.flatMap (mergeStep ps)).enum⟩ := rfl

/-- Stage 6 evaluated on the merged layout. -/
theorem stageFlags_std (rs : List (Nat × List Value)) :
    stageFlags ⟨mergedCols16, rs⟩ =
      Except.ok ⟨enrichedCols, (rs.map discFlagStep).map stockFlagStep⟩ := rfl

/-- Normal form of the pipeline body on the standard input layouts: the
first six stages evaluate to `enrichedBatchStd`, and only the cast and the
projection remain. -/
theorem transformRest_std (parse : String → Option (Int × Nat))
    (srows prows : List (Nat × List Value)) :
    transformRest parse ⟨salesInputCols, srows⟩ ⟨productInputCols, prows⟩ =
      stageAstypeHour (enrichedBatchStd parse srows prows) >>= stageSelect := by
  unfold transformRest
  rw [stageCompleted_std, exBindOk, stageRegion_std, exBindOk,
    stageTimestamps_std, exBindOk, stageRevenue_std, exBindOk,
    stageFinancialFilter_std, exBindOk, stageMerge_std, exBindOk,
    stageFlags_std, exBindOk]
  rfl

/-- Stage-7 cast on the enriched layout (`sale_hour` at 10). -/
def castHourStep (q : Nat × List Value) : Nat × List Value :=
  (q.1, (fit q.2 18).set 10 (castInt64 (cellAt q.2 10)))

/-- Stage-8 projection on the enriched layout: the positions of the
fourteen output columns. -/
def selectStep (q : Nat × List Value) : Nat × List Value :=
  (q.1, [0, 1, 12, 13, 6, 3, 4, 5, 11, 14, 17, 16, 9, 10].map
    (fun i => cellAt q.2 i))

/-- Stage 7 evaluated on the enriched layout. -/
theorem stageAstypeHour_enriched (parse : String → Option (Int × Nat))
    (srows prows : List (Nat × List Value)) :
    stageAstypeHour (enrichedBatchStd parse srows prows) =
      if (enrichedBatchStd parse srows prows).rows.any
          (fun q => decide (cellAt q.2 10 = Value.null)) then
        Except.error "ValueError: cannot convert non-finite values to int64"
      else
        Except.ok ⟨enrichedCols,
          (enrichedBatchStd parse srows prows).rows.map castHourStep⟩ := rfl

/-- Stage 8 evaluated on the enriched layout. -/
theorem stageSelect_enriched (rs : List (Nat × List Value)) :
    stageSelect ⟨enrichedCols, rs⟩ =
      Except.ok ⟨final_columns, rs.map selectStep⟩ := rfl

/-- Transport of a cell through the flag and cast stages: positions below
16 other than the `sale_hour` slot are untouched. -/
theorem cellAt_pipe (q : Nat × List Value) {k : Nat} (hk : k < 16) (hk10 : k ≠ 10) :
    cellAt (castHourStep (stockFlagStep (discFlagStep q))).2 k = cellAt q.2 k := by
  show cellAt ((fit (stockFlagStep (discFlagStep q)).2 18).set 10 _) k = _
  rw [cellAt_set_ne _ (by omega)]
  rw [cellAt_fit_lt (by omega)]
  show cellAt (fit (discFlagStep q).2 17 ++ _) k = _
  rw [cellAt_fitAppend_lt _ (by omega)]
  show cellAt (fit q.2 16 ++ _) k = _
  rw [cellAt_fitAppend_lt _ hk]

/-- A merged row agrees with its sales row on the twelve sales-side
positions. -/
theorem cellAt_mergeStep {prows : List (Nat × List Value)}
    {r : Nat × List Value} {m : List Value} (hm : m ∈ mergeStep prows r)
    {k : Nat} (hk : k < 12) : cellAt m k = cellAt r.2 k := by
  unfold mergeStep at hm
  by_cases he : (prows.filter (fun pq =>
      decide (cellAt r.2 1 ≠ Value.null ∧ cellAt pq.2 0 = cellAt r.2 1))).isEmpty
  · rw [if_pos he] at hm
    rw [List.mem_singleton] at hm
    rw [hm]
    exact cellAt_fitAppend_lt _ hk
  · rw [if_neg he] at hm
    obtain ⟨pq, _, hpq⟩ := List.mem_map.mp hm
    rw [← hpq]
    exact cellAt_fitAppend_lt _ hk

/-- CLAIM C1 — Every record in the batch returned by the
transform/enrichment pipeline (standard input layouts) satisfies the
revenue law: its revenue cell equals `qty * price * (1 - discount)` (the
discount read after null-defaulting to 0), exactly, hence within the
1e-2 tolerance. -/
theorem transform_revenue_law (parse : String → Option (Int × Nat))
    (srows prows : List (Nat × List Value)) (out : Batch)
    (hok : (transform_sales_and_products parse ⟨salesInputCols, srows⟩
      ⟨productInputCols, prows⟩).result = Except.ok out) :
    ∀ q ∈ out.rows, ∃ a p d rev,
      toRat (cellAt q.2 5) = some a ∧ toRat (cellAt q.2 6) = some p ∧
      toRat (cellAt q.2 7) = some d ∧ cellAt q.2 8 = Value.rat rev ∧
      |rev - a * p * (1 - d)| ≤ 1 / 100 := by
  have hren : renameHeaders (⟨salesInputCols, srows⟩ : Batch) =
      (⟨salesInputCols, srows⟩ : Batch) := rfl
  unfold transform_sales_and_products at hok
  rw [hren] at hok
  rw [transformRest_std, stageAstypeHour_enriched] at hok
  by_cases hnull : (enrichedBatchStd parse srows prows).rows.any
      (fun q => decide (cellAt q.2 10 = Value.null))
  · rw [if_pos hnull] at hok
    exact absurd hok (by simp [Bind.bind, Except.bind])
  · rw [if_neg hnull, exBindOk, stageSelect_enriched] at hok
    have hout : out = ⟨final_columns,
        ((enrichedBatchStd parse srows prows).rows.map castHourStep).map selectStep⟩ :=
      (Except.ok.inj hok).symm
    intro q hq
    rw [hout] at hq
    obtain ⟨q1, hq1, hqeq⟩ := List.mem_map.mp hq
    obtain ⟨q2, hq2, hq1eq⟩ := List.mem_map.mp hq1
    unfold enrichedBatchStd at hq2
    obtain ⟨q3, hq3, hq2eq⟩ := List.mem_map.mp hq2
    obtain ⟨q4, hq4, hq3eq⟩ := List.mem_map.mp hq3
    have hmmem : q4.2 ∈ mergedRowsStd parse srows prows := snd_mem_of_mem_enum hq4
    obtain ⟨r, hr, hm⟩ := List.mem_flatMap.mp hmmem
    unfold survivingSalesRows at hr
    obtain ⟨hrmem, hfin⟩ := List.mem_filter.mp hr
    obtain ⟨r0, _, hr0⟩ := List.mem_map.mp hrmem
    unfold financialFilter at hfin
    rw [Bool.and_eq_true] at hfin
    have hrev : cellAt r.2 11 = revenueCell r0.2 := by
      rw [← hr0]
      exact cellAt_fitAppend_eq r0.2 11 (revenueCell r0.2)
    have hgz : gtZero (revenueCell r0.2) = true := by
      rw [← hrev]; exact hfin.2
    rcases h3 : toRat (cellAt r0.2 3) with _ | a
    · rw [revenueCell, h3] at hgz; simp [gtZero, toRat] at hgz
    rcases h4 : toRat (cellAt r0.2 4) with _ | p
    · rw [revenueCell, h3, h4] at hgz; simp [gtZero, toRat] at hgz
    rcases h5 : toRat (cellAt r0.2 5) with _ | d
    · rw [revenueCell, h3, h4, h5] at hgz; simp [gtZero, toRat] at hgz
    have hrevval : revenueCell r0.2 = Value.rat (a * p * (1 - d)) := by
      rw [revenueCell, h3, h4, h5]
    -- transport one sales-side cell from the output row back to r0
    have htrans : ∀ k, k < 11 → k ≠ 10 →
        cellAt q1.2 k = cellAt r0.2 k := by
      intro k hk hk10
      rw [← hq1eq, ← hq2eq, ← hq3eq]
      rw [cellAt_pipe q4 (by omega) hk10]
      rw [cellAt_mergeStep hm (by omega)]
      rw [← hr0]
      show cellAt (fit r0.2 11 ++ _) k = _
      rw [cellAt_fitAppend_lt _ hk]
    have htrans11 : cellAt q1.2 11 = revenueCell r0.2 := by
      rw [← hq1eq, ← hq2eq, ← hq3eq]
      rw [cellAt_pipe q4 (by omega) (by omega)]
      rw [cellAt_mergeStep hm (by omega)]
      exact hrev
    have hs5 : cellAt q.2 5 = cellAt q1.2 3 := by rw [← hqeq]; rfl
    have hs6 : cellAt q.2 6 = cellAt q1.2 4 := by rw [← hqeq]; rfl
    have hs7 : cellAt q.2 7 = cellAt q1.2 5 := by rw [← hqeq]; rfl
    have hs8 : cellAt q.2 8 = cellAt q1.2 11 := by rw [← hqeq]; rfl
    refine ⟨a, p, d, a * p * (1 - d), ?_, ?_, ?_, ?_, ?_⟩
    · rw [hs5, htrans 3 (by omega) (by omega), h3]
    · rw [hs6, htrans 4 (by omega) (by omega), h4]
    · rw [hs7, htrans 5 (by omega) (by omega), h5]
    · rw [hs8, htrans11, hrevval]
    · simp

/-- Projection positions: each output column reads its enriched-layout
slot. -/
theorem selectStep_cell0 (x : Nat × List Value) :
    cellAt (selectStep x).2 0 = cellAt x.2 0 := rfl

/-- Projection position of `product_id`. -/
theorem selectStep_cell1 (x : Nat × List Value) :
    cellAt (selectStep x).2 1 = cellAt x.2 1 := rfl

/-- Projection position of `category`. -/
theorem selectStep_cell2 (x : Nat × List Value) :
    cellAt (selectStep x).2 2 = cellAt x.2 12 := rfl

/-- Projection position of `brand`. -/
theorem selectStep_cell3 (x : Nat × List Value) :
    cellAt (selectStep x).2 3 = cellAt x.2 13 := rfl

/-- Projection position of `rating`. -/
theorem selectStep_cell9 (x : Nat × List Value) :
    cellAt (selectStep x).2 9 = cellAt x.2 14 := rfl

/-- Projection position of `is_in_stock`. -/
theorem selectStep_cell10 (x : Nat × List Value) :
    cellAt (selectStep x).2 10 = cellAt x.2 17 := rfl

/-- The flag/cast stages keep position 17 equal to the `is_in_stock` cell
appended by `stockFlagStep`. -/
theorem cellAt_pipe17 (q : Nat × List Value) :
    cellAt (castHourStep (stockFlagStep q)).2 17 =
      (match cellAt q.2 15 with
       | Value.null => Value.bool false
       | v => v) := by
  show cellAt ((fit (stockFlagStep q).2 18).set 10 _) 17 = _
  rw [cellAt_set_ne _ (by omega), cellAt_fit_lt (by omega)]
  show cellAt (fit q.2 17 ++ [_]) 17 = _
  rw [cellAt_fitAppend_eq]

/-- The discount-flag stage keeps position 15 (the `in_stock` cell). -/
theorem cellAt_discFlag15 (q : Nat × List Value) :
    cellAt (discFlagStep q).2 15 = cellAt q.2 15 := by
  show cellAt (fit q.2 16 ++ [_]) 15 = _
  exact cellAt_fitAppend_lt _ (by omega)

/-- CLAIM C6 — For every sales row that survives the filters and whose
`product_id` has no (non-null-keyed) match among the product rows, the
left-outer join retains the row: the output contains a record with the
same `sales_id` and `product_id`, null `category`, `brand` and `rating`,
and `is_in_stock` equal to false (null `in_stock` defaulted to false). -/
theorem transform_join_defaulting (parse : String → Option (Int × Nat))
    (srows prows : List (Nat × List Value)) (out : Batch)
    (hok : (transform_sales_and_products parse ⟨salesInputCols, srows⟩
      ⟨productInputCols, prows⟩).result = Except.ok out)
    (r : Nat × List Value) (hr : r ∈ survivingSalesRows parse srows)
    (hnomatch : ∀ pq ∈ prows,
      ¬(cellAt r.2 1 ≠ Value.null ∧ cellAt pq.2 0 = cellAt r.2 1)) :
    ∃ q ∈ out.rows,
      cellAt q.2 0 = cellAt r.2 0 ∧ cellAt q.2 1 = cellAt r.2 1 ∧
      cellAt q.2 2 = Value.null ∧ cellAt q.2 3 = Value.null ∧
      cellAt q.2 9 = Value.null ∧ cellAt q.2 10 = Value.bool false := by
  have hren : renameHeaders (⟨salesInputCols, srows⟩ : Batch) =
      (⟨salesInputCols, srows⟩ : Batch) := rfl
  unfold transform_sales_and_products at hok
  rw [hren] at hok
  rw [transformRest_std, stageAstypeHour_enriched] at hok
  by_cases hnull : (enrichedBatchStd parse srows prows).rows.any
      (fun q => decide (cellAt q.2 10 = Value.null))
  · rw [if_pos hnull] at hok
    exact absurd hok (by simp [Bind.bind, Except.bind])
  · rw [if_neg hnull, exBindOk, stageSelect_enriched] at hok
    have hout : out = ⟨final_columns,
        ((enrichedBatchStd parse srows prows).rows.map castHourStep).map selectStep⟩ :=
      (Except.ok.inj hok).symm
    have hms : (prows.filter (fun pq =>
        decide (cellAt r.2 1 ≠ Value.null ∧ cellAt pq.2 0 = cellAt r.2 1))).isEmpty := by
      rw [List.isEmpty_iff, List.filter_eq_nil_iff]
      intro pq hpq
      simp only [decide_eq_true_eq]
      exact hnomatch pq hpq
    have hm : (fit r.2 12 ++ List.replicate 4 Value.null) ∈ mergeStep prows r := by
      unfold mergeStep
      rw [if_pos hms]
      exact List.mem_singleton.mpr rfl
    have hmm : (fit r.2 12 ++ List.replicate 4 Value.null) ∈
        mergedRowsStd parse srows prows :=
      List.mem_flatMap.mpr ⟨r, hr, hm⟩
    obtain ⟨i, hienum⟩ := exists_mem_enum_of_mem hmm
    refine ⟨selectStep (castHourStep (stockFlagStep (discFlagStep
      (i, fit r.2 12 ++ List.replicate 4 Value.null)))), ?_, ?_, ?_, ?_, ?_, ?_, ?_⟩
    · rw [hout]
      refine List.mem_map.mpr ⟨_, List.mem_map.mpr ⟨_, ?_, rfl⟩, rfl⟩
      unfold enrichedBatchStd
      exact List.mem_map.mpr ⟨_, List.mem_map.mpr ⟨_, hienum, rfl⟩, rfl⟩
    · rw [selectStep_cell0, cellAt_pipe _ (by omega) (by omega)]
      exact cellAt_fitAppend_lt (List.replicate 4 Value.null) (by omega)
    · rw [selectStep_cell1, cellAt_pipe _ (by omega) (by omega)]
      exact cellAt_fitAppend_lt (List.replicate 4 Value.null) (by omega)
    · rw [selectStep_cell2, cellAt_pipe _ (by omega) (by omega)]
      exact cellAt_fitAppend_replicate (by omega) (by omega)
    · rw [selectStep_cell3, cellAt_pipe _ (by omega) (by omega)]
      exact cellAt_fitAppend_replicate (by omega) (by omega)
    · rw [selectStep_cell9, cellAt_pipe _ (by omega) (by omega)]
      exact cellAt_fitAppend_replicate (by omega) (by omega)
    · rw [selectStep_cell10, cellAt_pipe17, cellAt_discFlag15]
      have h2 : cellAt (fit r.2 12 ++ List.replicate 4 Value.null) 15 = Value.null :=
        cellAt_fitAppend_replicate (by omega) (by omega)
      rw [h2]

/-- A small stand-in for the pandas mixed-format parser, used to evaluate
witnesses: it understands the two timestamps of the toy inputs. -/
def parseToyTimestamps : String → Option (Int × Nat) := fun s =>
  if s = "2026-01-01 10:30" then some (20260101, 10)
  else if s = "2026-01-02" then some (20260102, 0)
  else none

/-- Toy sales rows: one completed order for product 101 with a null
discount. -/
def toySalesRows : List (Nat × List Value) :=
  [(0, [Value.int 1, Value.int 101, Value.str "Completed", Value.int 5,
        Value.rat 100, Value.null, Value.str "us",
        Value.str "2026-01-01 10:30"])]

/-- Toy product rows: the dimension row for product 101. -/
def toyProductRows : List (Nat × List Value) :=
  [(0, [Value.int 101, Value.str "Electronics", Value.str "BrandA",
        Value.rat 4, Value.bool true])]

/-- The working row surviving stages 1–4.5 on the toy sales input. -/
def toySurvivorRow : Nat × List Value :=
  (0, [Value.int 1, Value.int 101, Value.str "Completed", Value.int 5,
       Value.rat 100, Value.rat 0, Value.str "US",
       Value.str "2026-01-01 10:30", Value.ts 20260101 10,
       Value.date 20260101, Value.int 10, Value.rat 500])

/-- Evaluation of the filter stages on the toy input (the rational
arithmetic `5 * 100 * (1 - 0) = 500` is discharged by `norm_num`). -/
theorem toySurvivors_eval :
    survivingSalesRows parseToyTimestamps toySalesRows = [toySurvivorRow] := by
  norm_num [survivingSalesRows, toySalesRows, toySurvivorRow, completedFilter,
    cellAt, regionStep, regionFix, fit, tsStep, tsParse, parseToyTimestamps,
    dateStep, hourStep, fillDiscountStep, revenueStep, revenueCell, toRat,
    financialFilter, gtZero, upperStr, upChar, List.range, List.range.loop]
  decide

/-- The enriched record the pipeline produces from the toy inputs. -/
def toyOutRow : List Value :=
  [Value.int 1, Value.int 101, Value.str "Electronics", Value.str "BrandA",
   Value.str "US", Value.int 5, Value.rat 100, Value.rat 0,
   Value.rat 500, Value.rat 4, Value.bool true, Value.bool false,
   Value.date 20260101, Value.int 10]

/-- The batch the pipeline returns on the toy inputs. -/
def toyOut : Batch := { cols := final_columns, rows := [(0, toyOutRow)] }

/-- Full evaluation of the pipeline on the toy inputs. -/
theorem toyRun_eval :
    (transform_sales_and_products parseToyTimestamps ⟨salesInputCols, toySalesRows⟩
      ⟨productInputCols, toyProductRows⟩).result = Except.ok toyOut := by
  show transformRest parseToyTimestamps ⟨salesInputCols, toySalesRows⟩
    ⟨productInputCols, toyProductRows⟩ = Except.ok toyOut
  rw [transformRest_std]
  unfold enrichedBatchStd mergedRowsStd
  rw [toySurvivors_eval]
  decide

/-- Witness for C1 at a concrete run: the toy record's revenue obeys the
law (`5 * 100 * (1 - 0) = 500` after the null discount is defaulted to
0) within the 1e-2 tolerance. -/
theorem transform_revenue_law_witness :
    ∃ a p d rev,
      toRat (cellAt toyOutRow 5) = some a ∧ toRat (cellAt toyOutRow 6) = some p ∧
      toRat (cellAt toyOutRow 7) = some d ∧ cellAt toyOutRow 8 = Value.rat rev ∧
      |rev - a * p * (1 - d)| ≤ 1 / 100 :=
  transform_revenue_law parseToyTimestamps toySalesRows toyProductRows toyOut
    toyRun_eval (0, toyOutRow) (List.mem_singleton.mpr rfl)

/-- Toy sales rows whose `product_id` (999) has no dimension match. -/
def toyNoMatchSalesRows : List (Nat × List Value) :=
  [(0, [Value.int 1, Value.int 999, Value.str "Completed", Value.int 5,
        Value.rat 100, Value.rat 0, Value.null, Value.str "2026-01-02"])]

/-- The surviving working row for the unmatched toy sale. -/
def toyNoMatchSurvivor : Nat × List Value :=
  (0, [Value.int 1, Value.int 999, Value.str "Completed", Value.int 5,
       Value.rat 100, Value.rat 0, Value.str "UNKNOWN", Value.str "2026-01-02",
       Value.ts 20260102 0, Value.date 20260102, Value.int 0, Value.rat 500])

/-- Evaluation of the filter stages on the unmatched toy input. -/
theorem toyNoMatchSurvivors_eval :
    survivingSalesRows parseToyTimestamps toyNoMatchSalesRows =
      [toyNoMatchSurvivor] := by
  norm_num [survivingSalesRows, toyNoMatchSalesRows, toyNoMatchSurvivor,
    completedFilter, cellAt, regionStep, regionFix, fit, tsStep, tsParse,
    parseToyTimestamps, dateStep, hourStep, fillDiscountStep, revenueStep,
    revenueCell, toRat, financialFilter, gtZero, upperStr, upChar,
    List.range, List.range.loop]
  decide

/-- The batch the pipeline returns on the unmatched toy inputs. -/
def toyNoMatchOut : Batch :=
  { cols := final_columns
    rows := [(0, [Value.int 1, Value.int 999, Value.null, Value.null,
                  Value.str "UNKNOWN", Value.int 5, Value.rat 100, Value.rat 0,
                  Value.rat 500, Value.null, Value.bool false, Value.bool false,
                  Value.date 20260102, Value.int 0])] }

/-- Full evaluation of the pipeline on the unmatched toy inputs. -/
theorem toyNoMatchRun_eval :
    (transform_sales_and_products parseToyTimestamps
      ⟨salesInputCols, toyNoMatchSalesRows⟩
      ⟨productInputCols, toyProductRows⟩).result = Except.ok toyNoMatchOut := by
  show transformRest parseToyTimestamps ⟨salesInputCols, toyNoMatchSalesRows⟩
    ⟨productInputCols, toyProductRows⟩ = Except.ok toyNoMatchOut
  rw [transformRest_std]
  unfold enrichedBatchStd mergedRowsStd
  rw [toyNoMatchSurvivors_eval]
  decide

/-- Witness for C6 at a concrete run: the unmatched sale is retained with
null `category`/`brand`/`rating` and `is_in_stock = false`. -/
theorem transform_join_defaulting_witness :
    ∃ q ∈ toyNoMatchOut.rows,
      cellAt q.2 0 = cellAt toyNoMatchSurvivor.2 0 ∧
      cellAt q.2 1 = cellAt toyNoMatchSurvivor.2 1 ∧
      cellAt q.2 2 = Value.null ∧ cellAt q.2 3 = Value.null ∧
      cellAt q.2 9 = Value.null ∧ cellAt q.2 10 = Value.bool false :=
  transform_join_defaulting parseToyTimestamps toyNoMatchSalesRows toyProductRows
    toyNoMatchOut toyNoMatchRun_eval toyNoMatchSurvivor
    (by rw [toyNoMatchSurvivors_eval]; exact List.mem_singleton.mpr rfl)
    (by decide)

/-- A sales batch whose single completed, financially valid row carries an
unparseable timestamp. -/
def unparseableSalesRows : List (Nat × List Value) :=
  [(0, [Value.int 1, Value.int 101, Value.str "Completed", Value.int 5,
        Value.rat 100, Value.rat 0, Value.str "US", Value.str "not-a-date"])]

/-- The surviving working row for the unparseable-timestamp toy input:
null timestamp, null `sale_date`, null `sale_hour`. -/
def unparseableSurvivor : Nat × List Value :=
  (0, [Value.int 1, Value.int 101, Value.str "Completed", Value.int 5,
       Value.rat 100, Value.rat 0, Value.str "US", Value.str "not-a-date",
       Value.null, Value.null, Value.null, Value.rat 500])

/-- Evaluation of the filter stages on the unparseable-timestamp input. -/
theorem unparseableSurvivors_eval :
    survivingSalesRows parseToyTimestamps unparseableSalesRows =
      [unparseableSurvivor] := by
  norm_num [survivingSalesRows, unparseableSalesRows, unparseableSurvivor,
    completedFilter, cellAt, regionStep, regionFix, fit, tsStep, tsParse,
    parseToyTimestamps, dateStep, hourStep, fillDiscountStep, revenueStep,
    revenueCell, toRat, financialFilter, gtZero, upperStr, upChar,
    List.range, List.range.loop]
  decide

/-- CLAIM C4 (code bug) — A row with an unparseable timestamp gets a null
timestamp which propagates into `sale_date` and `sale_hour`, and it does
survive the completed-order and financial filters; but the pipeline then
raises at `enriched_df["sale_hour"].astype("int64")` (line 119), because
pandas cannot cast a column containing `NaN` to `int64`.  The row never
reaches the output gate, contrary to the claim (and to the code's own
comment that invalid dates "will be filtered later"). -/
theorem transform_unparseable_timestamp_raises :
    (cellAt unparseableSurvivor.2 9 = Value.null ∧
     cellAt unparseableSurvivor.2 10 = Value.null ∧
     survivingSalesRows parseToyTimestamps unparseableSalesRows =
       [unparseableSurvivor]) ∧
    (transform_sales_and_products parseToyTimestamps
      ⟨salesInputCols, unparseableSalesRows⟩
      ⟨productInputCols, toyProductRows⟩).result =
        Except.error "ValueError: cannot convert non-finite values to int64" := by
  refine ⟨⟨rfl, rfl, unparseableSurvivors_eval⟩, ?_⟩
  show transformRest parseToyTimestamps ⟨salesInputCols, unparseableSalesRows⟩
    ⟨productInputCols, toyProductRows⟩ =
      Except.error "ValueError: cannot convert non-finite values to int64"
  rw [transformRest_std]
  unfold enrichedBatchStd mergedRowsStd
  rw [unparseableSurvivors_eval]
  decide

/-- A products batch whose stock column header is unnormalized. -/
def productsBadHeaders : Batch :=
  { cols := ["product_id", "category", "brand", "rating", "In Stock"]
    rows := [(0, [Value.int 101, Value.str "Electronics", Value.str "BrandA",
                  Value.rat 4, Value.bool true])] }

/-- CLAIM C8 counterexample — The first stage does not normalize the
product batch's headers: after a call on a products frame with an
`"In Stock"` column, the caller's product frame still has the raw header
(not its normalization), and the pipeline raises `KeyError: in_stock`
at the business-flag stage instead of finding the normalized column. -/
theorem transform_product_headers_counterexample :
    ¬ ((transform_sales_and_products parseToyTimestamps
        ⟨salesInputCols, []⟩ productsBadHeaders).productsAfter.cols =
          productsBadHeaders.cols.map normalizeHeader) ∧
    (transform_sales_and_products parseToyTimestamps
      ⟨salesInputCols, []⟩ productsBadHeaders).result =
        Except.error "KeyError: in_stock" := by
  exact ⟨by decide, by rfl⟩

/-- CLAIM C8 (amended) — The first transform stage normalizes column
headers (strip, lowercase, spaces to underscores) on the sales batch
only: the caller-visible sales headers become their normalization, the
product headers are left untouched, and the normalization is
idempotent. -/
theorem transform_normalizes_sales_headers_only
    (parse : String → Option (Int × Nat)) (s p : Batch) (h : String) :
    (transform_sales_and_products parse s p).salesAfter.cols =
      s.cols.map normalizeHeader ∧
    (transform_sales_and_products parse s p).productsAfter.cols = p.cols ∧
    normalizeHeader (normalizeHeader h) = normalizeHeader h :=
  ⟨rfl, rfl, normalizeHeader_idem h⟩

/-- A sales batch with unnormalized headers, owned by the caller. -/
def messySalesBatch : Batch :=
  { cols := ["Sales_ID", "product_id", "Order Status", "qty", "price",
             "discount", "region", "time_stamp"]
    rows := [(0, [Value.int 1, Value.int 101, Value.str "Completed",
                  Value.int 5, Value.rat 100, Value.rat 0, Value.str "US",
                  Value.str "2026-01-02"])] }

/-- CLAIM C9 counterexample — `transform_sales_and_products` is not free
of caller-visible mutation: line 17 assigns `sales_df.columns` in place,
so after a call on a sales frame with unnormalized headers the caller's
frame has changed. -/
theorem transform_mutates_caller_sales :
    ¬ ((transform_sales_and_products parseToyTimestamps messySalesBatch
        ⟨productInputCols, toyProductRows⟩).salesAfter = messySalesBatch) := by
  decide

/-- CLAIM C9 (amended) — The only caller-visible mutation performed by
`transform_sales_and_products` is the in-place normalization of the sales
frame's headers: the products frame is returned untouched, the sales
frame after the call is exactly the header-renamed frame (data
unchanged), and a sales frame whose headers are already normalized is not
observably mutated at all.  (As a function of its two inputs the model is
deterministic by construction.) -/
theorem transform_mutation_frame (parse : String → Option (Int × Nat))
    (s p : Batch) :
    (transform_sales_and_products parse s p).productsAfter = p ∧
    (transform_sales_and_products parse s p).salesAfter = renameHeaders s ∧
    (s.cols.map normalizeHeader = s.cols →
      (transform_sales_and_products parse s p).salesAfter = s) := by
  refine ⟨rfl, rfl, fun h => ?_⟩
  show renameHeaders s = s
  unfold renameHeaders
  rw [h]

/-- Witness for the amended C9 at a concrete input with already-normalized
headers: the caller's sales frame is unchanged. -/
theorem transform_mutation_frame_witness :
    (transform_sales_and_products parseToyTimestamps
      ⟨salesInputCols, toySalesRows⟩
      ⟨productInputCols, toyProductRows⟩).salesAfter =
        ⟨salesInputCols, toySalesRows⟩ :=
  (transform_mutation_frame parseToyTimestamps ⟨salesInputCols, toySalesRows⟩
    ⟨productInputCols, toyProductRows⟩).2.2 (by decide)
